import Mathlib

/-!
A shallow embedding of the configuration reconciliation engine implemented by
the `Database` class in `src/src/common/db/Database.py`, together with
theorems settling the specification claims about it.

Python strings are modelled as lists of characters (`Str`), Python dicts as
association lists that preserve insertion order, and the SQLAlchemy session as
explicit state passing over a `DB` record of table contents.  Statements that
the source executes immediately inside the open transaction
(`query(...).delete()` / `query(...).update()`) mutate the threaded `DB`
value, while objects collected in the source's `to_put` lists stay invisible
to queries until the final `session.add_all(to_put); session.commit()`, which
is modelled by the `commit...` functions.  A Python exception that escapes the
operation (the `__db_session` context manager rolls back and re-raises) is
modelled as `Except.error ()`; an exception caught by the operation itself and
turned into a returned error string is modelled as a normal `.ok` result
carrying a non-empty message and the rolled-back (entry) state.
-/

namespace Bw

/-- Python strings are modelled as lists of characters. -/
abbrev Str := List Char

/-- Turn a Lean string literal into the model's string type. -/
def str (s : String) : Str := s.data

/-- Python `s.split(c)` with an explicit one-character separator: empty
segments are kept, and the empty string splits to `[""]`. -/
def splitOnChar (c : Char) : Str → List Str
  | [] => [[]]
  | ch :: rest =>
    match splitOnChar c rest with
    | [] => [[]]
    | seg :: segs => if ch = c then [] :: seg :: segs else (ch :: seg) :: segs

/-- Fuelled worker for `replaceAll`; the fuel is always instantiated with the
length of the subject string, which suffices because every step consumes at
least one character of the subject. -/
def replaceAllF (pat rep : Str) : Nat → Str → Str
  | _, [] => []
  | 0, l => l
  | n + 1, c :: rest =>
    if pat.isPrefixOf (c :: rest) then
      rep ++ replaceAllF pat rep n ((c :: rest).drop pat.length)
    else
      c :: replaceAllF pat rep n rest

/-- Python `s.replace(pat, rep)`: replace every non-overlapping occurrence of
`pat`, scanning left to right.  (The engine never calls `replace` with an
empty pattern, so the empty-pattern case is inert here.) -/
def replaceAll (pat rep l : Str) : Str :=
  if pat = [] then l else replaceAllF pat rep l.length l

/-- The test `re.search(r"_\d+$", key)` from `save_config`: the key ends in at
least one base-10 digit and the character immediately before that trailing
digit run is an underscore. -/
def hasNumSuffix (key : Str) : Bool :=
  let r := key.reverse
  decide (r.takeWhile Char.isDigit ≠ []) &&
    decide ((r.dropWhile Char.isDigit).head? = some '_')

/-- Python `key.split("_")[-1]`: the segment of `key` after its last
underscore (the whole key when it has no underscore). -/
def lastUnderscoreSegment (key : Str) : Str :=
  (key.reverse.takeWhile (fun c => c ≠ '_')).reverse

/-- Python `int(...)` on a string of base-10 digits. -/
def digitsToNat (l : Str) : Nat :=
  l.foldl (fun n c => 10 * n + (c.toNat - 48)) 0

/-- The length of Python `str(n)` for a natural number `n`. -/
def natReprLen (n : Nat) : Nat := (Nat.repr n).length

/-- The decimal representation of `n` as a model string (Python `str(n)` /
f-string interpolation of an `int`). -/
def natStr (n : Nat) : Str := (Nat.repr n).data

/-- The suffix-parsing step of `save_config` (source lines 292-295 and
402-405): if the key matches `_\d+$`, the suffix is `int(key.split("_")[-1])`
and the key is truncated by `len(str(suffix)) + 1` characters from the right;
otherwise the suffix is 0 and the key is unchanged.  Returns
`(remaining key, suffix)`. -/
def parseSuffixKey (key : Str) : Str × Nat :=
  if hasNumSuffix key then
    let suffix := digitsToNat (lastUnderscoreSegment key)
    (key.take (key.length - (natReprLen suffix + 1)), suffix)
  else
    (key, 0)

/-- Modelled from the spec: the engine only ever compares checksums of the
payloads it has itself hashed, so the external `sha256(...).hexdigest()`
function is modelled as an injective content fingerprint (the content
itself). -/
def sha256hex (s : Str) : Str := s

/-! ## Table rows

Row structures mirror the ORM classes used by `Database.py` (`model.py` is an
external collaborator; the columns below are the ones the engine reads or
writes, with key structure taken from the spec's data model, section 3). -/

/-- A row of the `Settings` table (the settings catalog). -/
structure Settings where
  id : Str
  name : Str
  plugin_id : Str
  context : Str
  default : Str
  help : Str
  label : Str
  regex : Str
  type : Str
  multiple : Bool
deriving Repr, DecidableEq

/-- A row of the `Global_values` table. -/
structure Global_values where
  setting_id : Str
  suffix : Nat
  value : Str
  method : Str
deriving Repr, DecidableEq

/-- A row of the `Services_settings` table. -/
structure Services_settings where
  service_id : Str
  setting_id : Str
  suffix : Nat
  value : Str
  method : Str
deriving Repr, DecidableEq

/-- A row of the `Custom_configs` table.  `service_id` is nullable. -/
structure Custom_configs where
  service_id : Option Str
  type : Str
  name : Str
  data : Str
  checksum : Str
  method : Str
deriving Repr, DecidableEq

/-- A row of the `Plugins` table. -/
structure Plugins where
  id : Str
  order : Int
  name : Str
  description : Str
  version : Str
  external : Bool
deriving Repr, DecidableEq

/-- A row of the `Selects` table (enumerated choices of a setting). -/
structure Selects where
  setting_id : Str
  value : Str
deriving Repr, DecidableEq

/-- A row of the `Jobs` table (the columns written by the plugin sync path). -/
structure Jobs where
  plugin_id : Str
  name : Str
  file : Str
  every : Str
  reload : Bool
deriving Repr, DecidableEq

/-- A row of the `Plugin_pages` table. -/
structure Plugin_pages where
  plugin_id : Str
  template_file : Str
  template_checksum : Str
  actions_file : Str
  actions_checksum : Str
deriving Repr, DecidableEq

/-- The persistent store: the table contents the engine reads and writes,
plus the `first_config_saved` flag of the `Metadata` singleton. -/
structure DB where
  services : List Str
  settings : List Settings
  global_values : List Global_values
  services_settings : List Services_settings
  custom_configs : List Custom_configs
  plugins : List Plugins
  selects : List Selects
  jobs : List Jobs
  plugin_pages : List Plugin_pages
  first_config_saved : Bool
deriving Repr, DecidableEq

/-! ## Queries and immediate statements

`query(...).first()` is modelled as the first matching row of the table list;
`query(...).delete()` and `query(...).update()` act immediately on the
threaded `DB` value, exactly like the source's bulk statements act inside the
open transaction. -/

/-- `session.query(Settings).filter_by(id=sid).first()`. -/
def findSetting : List Settings → Str → Option Settings
  | [], _ => none
  | s :: rest, sid => if s.id = sid then some s else findSetting rest sid

/-- `session.query(Global_values).filter_by(setting_id=sid, suffix=sfx).first()`. -/
def findGlobalRow : List Global_values → Str → Nat → Option Global_values
  | [], _, _ => none
  | r :: rest, sid, sfx =>
    if r.setting_id = sid ∧ r.suffix = sfx then some r else findGlobalRow rest sid sfx

/-- `session.query(Services_settings).filter_by(service_id=srv, setting_id=sid, suffix=sfx).first()`. -/
def findServiceRow : List Services_settings → Str → Str → Nat → Option Services_settings
  | [], _, _, _ => none
  | r :: rest, srv, sid, sfx =>
    if r.service_id = srv ∧ r.setting_id = sid ∧ r.suffix = sfx then some r
    else findServiceRow rest srv sid sfx

/-- `session.query(Custom_configs).filter_by(service_id=svc, type=ty, name=nm).first()`. -/
def findCustomRow : List Custom_configs → Option Str → Str → Str → Option Custom_configs
  | [], _, _, _ => none
  | r :: rest, svc, ty, nm =>
    if r.service_id = svc ∧ r.type = ty ∧ r.name = nm then some r
    else findCustomRow rest svc ty nm

/-- `query(Global_values).filter(method == m).delete()`. -/
def deleteGlobalByMethod : List Global_values → Str → List Global_values
  | [], _ => []
  | r :: rest, m =>
    if r.method = m then deleteGlobalByMethod rest m
    else r :: deleteGlobalByMethod rest m

/-- `query(Services_settings).filter(method == m).delete()`. -/
def deleteServiceByMethod : List Services_settings → Str → List Services_settings
  | [], _ => []
  | r :: rest, m =>
    if r.method = m then deleteServiceByMethod rest m
    else r :: deleteServiceByMethod rest m

/-- `query(Custom_configs).filter(method == m).delete()`. -/
def deleteCustomByMethod : List Custom_configs → Str → List Custom_configs
  | [], _ => []
  | r :: rest, m =>
    if r.method = m then deleteCustomByMethod rest m
    else r :: deleteCustomByMethod rest m

/-- `query(Global_values).filter(setting_id == sid, suffix == sfx).delete()`. -/
def deleteGlobalAt : List Global_values → Str → Nat → List Global_values
  | [], _, _ => []
  | r :: rest, sid, sfx =>
    if r.setting_id = sid ∧ r.suffix = sfx then deleteGlobalAt rest sid sfx
    else r :: deleteGlobalAt rest sid sfx

/-- `query(Services_settings).filter(...).delete()` at a full key. -/
def deleteServiceAt : List Services_settings → Str → Str → Nat → List Services_settings
  | [], _, _, _ => []
  | r :: rest, srv, sid, sfx =>
    if r.service_id = srv ∧ r.setting_id = sid ∧ r.suffix = sfx then
      deleteServiceAt rest srv sid sfx
    else r :: deleteServiceAt rest srv sid sfx

/-- `query(Global_values).filter(...).update({value: v, method: m})`. -/
def updateGlobalAt : List Global_values → Str → Nat → Str → Str → List Global_values
  | [], _, _, _, _ => []
  | r :: rest, sid, sfx, v, m =>
    if r.setting_id = sid ∧ r.suffix = sfx then
      { r with value := v, method := m } :: updateGlobalAt rest sid sfx v m
    else r :: updateGlobalAt rest sid sfx v m

/-- `query(Global_values).filter(...).update({value: v})` (single-site branch:
the owning method is left unchanged). -/
def updateGlobalValueAt : List Global_values → Str → Nat → Str → List Global_values
  | [], _, _, _ => []
  | r :: rest, sid, sfx, v =>
    if r.setting_id = sid ∧ r.suffix = sfx then
      { r with value := v } :: updateGlobalValueAt rest sid sfx v
    else r :: updateGlobalValueAt rest sid sfx v

/-- `query(Services_settings).filter(...).update({value: v, method: m})`. -/
def updateServiceAt :
    List Services_settings → Str → Str → Nat → Str → Str → List Services_settings
  | [], _, _, _, _, _ => []
  | r :: rest, srv, sid, sfx, v, m =>
    if r.service_id = srv ∧ r.setting_id = sid ∧ r.suffix = sfx then
      { r with value := v, method := m } :: updateServiceAt rest srv sid sfx v m
    else r :: updateServiceAt rest srv sid sfx v m

/-- `query(Custom_configs).filter(...).update({data, checksum} | maybe method)`:
rewrite content and checksum at a key, optionally also forcing the method. -/
def updateCustomAt :
    List Custom_configs → Option Str → Str → Str → Str → Str → Option Str →
      List Custom_configs
  | [], _, _, _, _, _, _ => []
  | r :: rest, svc, ty, nm, d, ck, newM =>
    if r.service_id = svc ∧ r.type = ty ∧ r.name = nm then
      { r with data := d, checksum := ck, method := newM.getD r.method } ::
        updateCustomAt rest svc ty nm d ck newM
    else r :: updateCustomAt rest svc ty nm d ck newM

/-! ## Commit

The schema itself lives in `model.py`, outside the embedded source.
Modelled from the spec: the data model of section 3 fixes the natural keys
(`Service.id`; `GlobalValue (settingId, suffix)`;
`ServiceSetting (serviceId, settingId, suffix)`;
`CustomConfig (serviceId, type, name)`; `Plugin.id`; `SettingDefinition.id`;
select values per setting; `Job (pluginId, name)`; one page per plugin), so
`session.add_all(to_put); session.commit()` fails with an integrity error
exactly when an inserted row duplicates one of those keys; the source catches
that failure and returns `format_exc()` while the session rolls the whole
transaction back. -/

/-- Check that inserting the given elements, keyed by `keyOf`, collides
neither with the existing keys in `seen` nor with each other. -/
def distinctFrom {α κ : Type} [DecidableEq κ] (keyOf : α → κ) :
    List κ → List α → Bool
  | _, [] => true
  | seen, a :: rest =>
    if keyOf a ∈ seen then false else distinctFrom keyOf (keyOf a :: seen) rest

/-! ## `save_config` (source lines 268-452) -/

/-- A submitted configuration: an insertion-ordered mapping of keys to string
values (a Python dict). -/
abbrev Config := List (Str × Str)

/-- Python `config[k]` / `k in config` as an optional lookup. -/
def cfgGet : Config → Str → Option Str
  | [], _ => none
  | (k, v) :: rest, key => if k = key then some v else cfgGet rest key

/-- The mutable state threaded through `save_config`'s loops: the session
view `db`, the pending `to_put` inserts (invisible to queries), the
`global_values` list of already-processed global keys, and the value of the
Python local variable `global_value` — `none` while still unbound
(`NameError` on access), `some none` after being bound to a `None` query
result (`AttributeError` on attribute access), `some (some v)` after being
bound to a row with value `v`. -/
structure MState where
  db : DB
  tpServices : List Str
  tpGlobals : List Global_values
  tpSvc : List Services_settings
  gkeys : List Str
  gvar : Option (Option Str)
deriving Repr, DecidableEq

/-- An error-propagating fold, used for the `for` loops of the multisite
branch (any uncaught Python exception aborts the whole call). -/
def foldE {α : Type} (f : MState → α → Except Unit MState) :
    MState → List α → Except Unit MState
  | st, [] => .ok st
  | st, a :: rest =>
    match f st a with
    | .error u => .error u
    | .ok st1 => foldE f st1 rest

/-- One iteration of the inner `for key, value in deepcopy(config).items()`
loop of the multisite branch (source lines 291-396), for server `sname`. -/
def processEntry (config : Config) (method sname : Str) (st : MState)
    (e : Str × Str) : Except Unit MState :=
  let value := e.2
  let p := parseSuffixKey e.1
  let key1 := p.1
  let sfx := p.2
  match findSetting st.db.settings (replaceAll (sname ++ ['_']) [] key1) with
  | none => .ok st
  | some srow =>
    if sname ≠ [] ∧ sname.isPrefixOf key1 = true then
      let key2 := replaceAll (sname ++ ['_']) [] key1
      match findServiceRow st.db.services_settings sname key2 sfx with
      | none =>
        if key2 ≠ str "SERVER_NAME" ∧
            (value = srow.default ∨ cfgGet config key2 = some value) then
          .ok st
        else
          .ok { st with tpSvc := st.tpSvc ++ [⟨sname, key2, sfx, value, method⟩] }
      | some _ =>
        if method = str "autoconf" then
          if key2 ≠ str "SERVER_NAME" ∧
              (value = srow.default ∨ cfgGet config key2 = some value) then
            .ok { st with db := { st.db with
              services_settings :=
                deleteServiceAt st.db.services_settings sname key2 sfx } }
          else
            match st.gvar with
            | some (some gv) =>
              if gv ≠ value then
                .ok { st with db := { st.db with
                  services_settings :=
                    updateServiceAt st.db.services_settings sname key2 sfx value method } }
              else .ok st
            | _ => .error ()
        else .ok st
    else
      if key1 ∈ st.gkeys then .ok st
      else
        let g := (findGlobalRow st.db.global_values key1 sfx).map (fun r => r.value)
        let st1 := { st with gkeys := st.gkeys ++ [key1], gvar := some g }
        match g with
        | none =>
          if value = srow.default then .ok st1
          else .ok { st1 with tpGlobals := st1.tpGlobals ++ [⟨key1, sfx, value, method⟩] }
        | some gv =>
          if method = str "autoconf" then
            if value = srow.default then
              .ok { st1 with db := { st1.db with
                global_values := deleteGlobalAt st1.db.global_values key1 sfx } }
            else if gv ≠ value then
              .ok { st1 with db := { st1.db with
                global_values := updateGlobalAt st1.db.global_values key1 sfx value method } }
            else .ok st1
          else .ok st1

/-- One iteration of the outer `for server_name in config["SERVER_NAME"].split(" ")`
loop of the multisite branch (source lines 281-396). -/
def processServer (config : Config) (method : Str) (st : MState)
    (sname : Str) : Except Unit MState :=
  let st :=
    if sname ≠ [] ∧ sname ∉ st.db.services then
      { st with tpServices := st.tpServices ++ [sname] }
    else st
  foldE (processEntry config method sname) st config

/-- One iteration of the single-site `for key, value in config.items()` loop
(source lines 401-437); no exception can escape this branch. -/
def singleSiteEntry (method : Str) (st : MState) (e : Str × Str) : MState :=
  let value := e.2
  let p := parseSuffixKey e.1
  let key1 := p.1
  let sfx := p.2
  let skip : Bool :=
    match findSetting st.db.settings key1 with
    | some srow => decide (value = srow.default)
    | none => false
  if skip then st
  else
    match findGlobalRow st.db.global_values key1 sfx with
    | none => { st with tpGlobals := st.tpGlobals ++ [⟨key1, sfx, value, method⟩] }
    | some grow =>
      if grow.method = method then
        { st with db := { st.db with
          global_values := updateGlobalValueAt st.db.global_values key1 sfx value } }
      else st

/-- The single-site branch (source lines 397-437): the first space-separated
`SERVER_NAME` entry is appended to `to_put` as a `Services` row without an
existence check, then every key is treated as global-scoped. -/
def singleSite (config : Config) (method sn : Str) (st : MState) : MState :=
  let primary := (splitOnChar ' ' sn).headD []
  let st := { st with tpServices := st.tpServices ++ [primary] }
  config.foldl (singleSiteEntry method) st

/-- `session.add_all(to_put); session.commit()` for `save_config`, preceded by
the `Metadata.first_config_saved` flip (source lines 439-452).  On an
integrity error the source catches the exception, the session rolls the whole
transaction back on close, and the entry state is returned together with a
non-empty failure description. -/
def commitSave (db0 : DB) (st : MState) : DB × Str :=
  let ok :=
    distinctFrom (fun s => s) st.db.services st.tpServices &&
    distinctFrom (fun g : Global_values => (g.setting_id, g.suffix))
      (st.db.global_values.map (fun g => (g.setting_id, g.suffix))) st.tpGlobals &&
    distinctFrom (fun s : Services_settings => (s.service_id, s.setting_id, s.suffix))
      (st.db.services_settings.map (fun s => (s.service_id, s.setting_id, s.suffix)))
      st.tpSvc
  if ok then
    ({ st.db with
        services := st.db.services ++ st.tpServices
        global_values := st.db.global_values ++ st.tpGlobals
        services_settings := st.db.services_settings ++ st.tpSvc
        first_config_saved := true }, [])
  else (db0, str "IntegrityError")

/-- `Database.save_config(config, method)` (source lines 268-452).
`Except.error ()` models a Python exception escaping to the caller
(`KeyError` on a missing `MULTISITE`/`SERVER_NAME` key of a non-empty config,
or the `NameError`/`AttributeError` raised at source line 346 when the stale
`global_value` variable is dereferenced); `.ok (db, msg)` models a normal
return, with `msg = ""` on success. -/
def save_config (db : DB) (config : Config) (method : Str) :
    Except Unit (DB × Str) :=
  let db0 := db
  let db1 := { db with
    global_values := deleteGlobalByMethod db.global_values method
    services_settings := deleteServiceByMethod db.services_settings method }
  let st0 : MState := ⟨db1, [], [], [], [], none⟩
  if config = [] then .ok (commitSave db0 st0)
  else
    match cfgGet config (str "MULTISITE"), cfgGet config (str "SERVER_NAME") with
    | none, _ => .error ()
    | some _, none => .error ()
    | some mv, some sn =>
      if mv = str "yes" then
        match foldE (processServer config method) st0 (splitOnChar ' ' sn) with
        | .error u => .error u
        | .ok st => .ok (commitSave db0 st)
      else
        .ok (commitSave db0 (singleSite config method sn st0))

/-! ## `get_config` (source lines 547-645) -/

/-- The two return shapes of `get_config`: a bare value when `methods=False`,
a `{"value": ..., "method": ...}` pair when `methods=True`. -/
inductive EVal where
  | bare (v : Str)
  | pair (v m : Str)
deriving Repr, DecidableEq

/-- The value component of either shape. -/
def EVal.valueOf : EVal → Str
  | .bare v => v
  | .pair v _ => v

/-- The projected configuration: a Python dict from keys to values. -/
abbrev CfgMap := List (Str × EVal)

/-- Dict assignment `config[k] = v`: replace in place or append. -/
def setK : CfgMap → Str → EVal → CfgMap
  | [], k, v => [(k, v)]
  | (k0, v0) :: rest, k, v =>
    if k0 = k then (k0, v) :: rest else (k0, v0) :: setK rest k v

/-- Dict lookup `config[k]` / `k in config`. -/
def lookupK : CfgMap → Str → Option EVal
  | [], _ => none
  | (k0, v0) :: rest, k => if k0 = k then some v0 else lookupK rest k

/-- Build a value in the shape selected by `methods`. -/
def mkVal (methods : Bool) (v m : Str) : EVal :=
  if methods then .pair v m else .bare v

/-- `setting.id + (f"_{suffix}" if suffix > 0 else "")`. -/
def suffKey (base : Str) (sfx : Nat) : Str :=
  base ++ (if sfx > 0 then '_' :: natStr sfx else [])

/-- One iteration of `get_config`'s `while True` loop body for a fixed
service, setting and suffix (source lines 562-643).  Returns the updated
projection and whether the loop continues with `suffix + 1` (`false` models
each of the three `break`s). -/
def probeStep (db : DB) (methods : Bool) (svc : Str) (st : Settings)
    (cfg : CfgMap) (sfx : Nat) : CfgMap × Bool :=
  let cfg :=
    match findGlobalRow db.global_values st.id sfx with
    | none =>
      if sfx = 0 then setK cfg st.id (mkVal methods st.default (str "default"))
      else cfg
    | some g => setK cfg (suffKey st.id sfx) (mkVal methods g.value g.method)
  if st.context ≠ str "multisite" then (cfg, false)
  else
    let cfg :=
      if sfx = 0 then
        -- `config[setting.id]` is always present here: the global block above
        -- just stored it at suffix 0, so the `getD` fallback is never used.
        let cur := (lookupK cfg st.id).getD (mkVal methods st.default (str "default"))
        setK cfg (svc ++ '_' :: st.id)
          (if methods then .pair cur.valueOf (str "default") else cur)
      else
        match lookupK cfg (suffKey st.id sfx) with
        | some cur =>
          setK cfg (svc ++ '_' :: suffKey st.id sfx)
            (if methods then .pair cur.valueOf (str "default") else cur)
        | none => cfg
    match findServiceRow db.services_settings svc st.id sfx with
    | some srow =>
      let cfg := setK cfg (svc ++ '_' :: suffKey st.id sfx) (mkVal methods srow.value srow.method)
      if st.multiple then (cfg, true) else (cfg, false)
    | none =>
      if sfx > 0 then (cfg, false)
      else if st.multiple then (cfg, true) else (cfg, false)

/-- The fuelled `while True` loop of `get_config`. -/
def probe (db : DB) (methods : Bool) (svc : Str) (st : Settings) :
    Nat → CfgMap → Nat → CfgMap
  | 0, cfg, _ => cfg
  | n + 1, cfg, sfx =>
    match probeStep db methods svc st cfg sfx with
    | (cfg1, true) => probe db methods svc st n cfg1 (sfx + 1)
    | (cfg1, false) => cfg1

/-- The largest suffix of any `Global_values` row. -/
def maxSuffixG : List Global_values → Nat
  | [] => 0
  | r :: rest => Nat.max r.suffix (maxSuffixG rest)

/-- The largest suffix of any `Services_settings` row. -/
def maxSuffixS : List Services_settings → Nat
  | [] => 0
  | r :: rest => Nat.max r.suffix (maxSuffixS rest)

/-- Fuel that always lets the probe run until one of its `break`s fires: past
the largest stored suffix, `findServiceRow` is `none` at a positive suffix,
so the loop stops. -/
def fuelOf (db : DB) : Nat :=
  Nat.max (maxSuffixG db.global_values) (maxSuffixS db.services_settings) + 2

/-- `Database.get_config(methods)` (source lines 547-645): for every service
and every settings-catalog entry, reconstruct the effective values by
probing suffixes from 0. -/
def get_config (db : DB) (methods : Bool) : CfgMap :=
  db.services.foldl
    (fun cfg svc =>
      db.settings.foldl
        (fun cfg st => probe db methods svc st (fuelOf db) cfg 0) cfg)
    []

/-! ## `save_custom_configs` (source lines 454-545) -/

/-- One submitted custom-config entry: the raw `value` payload and the
`exploded` triple `(service or falsy, type, name)`. -/
structure CustomEntry where
  value : Str
  service : Option Str
  ctype : Str
  cname : Str
deriving Repr, DecidableEq

/-- Python truthiness of `exploded[0]`: `None` and the empty string are
falsy, so the effective `service_id` of the row is `none` for both. -/
def CustomEntry.serviceId (e : CustomEntry) : Option Str :=
  match e.service with
  | some s => if s = [] then none else some s
  | none => none

/-- `custom_config["exploded"][1].replace("-", "_").lower()`. -/
def normType (t : Str) : Str :=
  (replaceAll ['-'] ['_'] t).map Char.toLower

/-- The loop state of `save_custom_configs`: session view, pending inserts,
accumulated warning message. -/
structure CState where
  db : DB
  tp : List Custom_configs
  message : Str
deriving Repr, DecidableEq

/-- Append a warning line, separated by a newline when a message is already
present (`f"{endl if message else ''}Service ... not found, ..."`). -/
def addWarning (message warning : Str) : Str :=
  if message = [] then warning else message ++ '\n' :: warning

/-- One iteration of the `for custom_config in custom_configs` loop
(source lines 468-537). -/
def customStep (method : Str) (st : CState) (e : CustomEntry) : CState :=
  let data := replaceAll ['\\', '\n'] ['\n'] e.value
  let ck := sha256hex data
  let st :=
    match e.service with
    | some s =>
      if s ≠ [] ∧ s ∉ st.db.services then
        { st with message := (addWarning st.message
            (str "Service " ++ s ++ str " not found, please check your config")) }
      else st
    | none => st
  let ty := normType e.ctype
  match findCustomRow st.db.custom_configs e.serviceId ty e.cname with
  | none => { st with tp := st.tp ++ [⟨e.serviceId, ty, e.cname, data, ck, method⟩] }
  | some row =>
    if ck ≠ row.checksum ∧ (method = row.method ∨ method = str "autoconf") then
      { st with db := { st.db with
        custom_configs := updateCustomAt st.db.custom_configs e.serviceId ty e.cname
          data ck (if method = str "autoconf" then some (str "autoconf") else none) } }
    else st

/-- `Database.save_custom_configs(custom_configs, method)` (source lines
454-545).  Returns the resulting store and the accumulated message (empty on
a fully clean run); a commit-time integrity error is caught by the source,
which returns the message plus the exception text while the transaction rolls
back. -/
def save_custom_configs (db : DB) (ccs : List CustomEntry) (method : Str) :
    DB × Str :=
  let db0 := db
  let db1 := { db with custom_configs := deleteCustomByMethod db.custom_configs method }
  let st := ccs.foldl (customStep method) ⟨db1, [], []⟩
  let ok := distinctFrom (fun c : Custom_configs => (c.service_id, c.type, c.name))
    (st.db.custom_configs.map (fun c => (c.service_id, c.type, c.name))) st.tp
  if ok then
    ({ st.db with custom_configs := st.db.custom_configs ++ st.tp }, st.message)
  else (db0, addWarning st.message (str "IntegrityError"))

/-! ## `update_external_plugins` (source lines 751-1076) -/

/-- The per-setting payload of a submitted plugin manifest (the dict stored
under a setting key; its `id` entry becomes the row's `name`). -/
structure MSetting where
  vid : Str
  context : Str
  default : Str
  help : Str
  label : Str
  regex : Str
  type : Str
  multiple : Bool
  select : List Str
deriving Repr, DecidableEq

/-- A submitted job descriptor. -/
structure MJob where
  name : Str
  file : Str
  every : Str
  reload : Bool
deriving Repr, DecidableEq

/-- A submitted page descriptor (`template_file` / `actions_file` payloads). -/
structure MPage where
  template_file : Str
  actions_file : Str
deriving Repr, DecidableEq

/-- A submitted external-plugin manifest. -/
structure Manifest where
  id : Str
  order : Int
  name : Str
  description : Str
  version : Str
  settings : List (Str × MSetting)
  jobs : List MJob
  pages : List MPage
deriving Repr, DecidableEq

/-- The pending inserts of `update_external_plugins`, grouped by table
(the source keeps one mixed `to_put` list; only the per-table contents are
observable through the commit). -/
structure PTp where
  plugins : List Plugins
  settings : List Settings
  selects : List Selects
  jobs : List Jobs
  pages : List Plugin_pages
deriving Repr, DecidableEq

/-- `Database.update_external_plugins(plugins)` (source lines 751-1076).
External plugins missing from the desired list are bulk-deleted (relationship
cascades live in the external schema and are not modelled).  The source then
guards its whole per-plugin diff/update branch with `if plugin["id"] in
db_ids:`, where `db_ids` is initialized to `[]` at line 762 and never
appended to, so that branch (source lines 778-1034, which also reads UI asset
files from disk) is unreachable and is not modelled; every desired manifest
falls through to the plain insert path of lines 1036-1068. -/
def update_external_plugins (db : DB) (manifests : List Manifest) : DB × Str :=
  let db0 := db
  let dbExternalIds := (db.plugins.filter (fun p => p.external)).map (fun p => p.id)
  let ids := manifests.map (fun m => m.id)
  let missing := dbExternalIds.filter (fun i : Str => decide (i ∉ ids))
  let db := { db with plugins := db.plugins.filter (fun p => decide (p.id ∉ missing)) }
  let db_ids : List Str := []
  let tp := manifests.foldl
    (fun (tp : PTp) m =>
      if m.id ∈ db_ids then tp
      else
        let tp := { tp with plugins := tp.plugins ++
          [⟨m.id, m.order, m.name, m.description, m.version, true⟩] }
        let tp := m.settings.foldl
          (fun (tp : PTp) sv =>
            { tp with
              selects := tp.selects ++ sv.2.select.map (fun s => ⟨sv.1, s⟩)
              settings := (tp.settings ++
                [⟨sv.1, sv.2.vid, m.id, sv.2.context, sv.2.default, sv.2.help,
                  sv.2.label, sv.2.regex, sv.2.type, sv.2.multiple⟩]) })
          tp
        let tp := { tp with jobs := (tp.jobs ++
          m.jobs.map (fun j : MJob => (⟨m.id, j.name, j.file, j.every, j.reload⟩ : Jobs))) }
        { tp with pages := (tp.pages ++
          m.pages.map (fun pg : MPage =>
            (⟨m.id, pg.template_file, sha256hex pg.template_file,
              pg.actions_file, sha256hex pg.actions_file⟩ : Plugin_pages))) })
    ⟨[], [], [], [], []⟩
  let ok :=
    distinctFrom (fun p : Plugins => p.id) (db.plugins.map (fun p => p.id)) tp.plugins &&
    distinctFrom (fun s : Settings => s.id) (db.settings.map (fun s => s.id)) tp.settings &&
    distinctFrom (fun s : Selects => (s.setting_id, s.value))
      (db.selects.map (fun s => (s.setting_id, s.value))) tp.selects &&
    distinctFrom (fun j : Jobs => (j.plugin_id, j.name))
      (db.jobs.map (fun j => (j.plugin_id, j.name))) tp.jobs &&
    distinctFrom (fun p : Plugin_pages => p.plugin_id)
      (db.plugin_pages.map (fun p => p.plugin_id)) tp.pages
  if ok then
    ({ db with
        plugins := db.plugins ++ tp.plugins
        settings := db.settings ++ tp.settings
        selects := db.selects ++ tp.selects
        jobs := db.jobs ++ tp.jobs
        plugin_pages := db.plugin_pages ++ tp.pages }, [])
  else (db0, str "IntegrityError")

/-! ## Helper lemmas -/

/-- `takeWhile` consumes a fully-satisfying prefix up to the first failing
element. -/
theorem takeWhile_all_append (p : Char → Bool) :
    ∀ (l1 : Str) (b : Char) (l2 : Str), (∀ c ∈ l1, p c = true) → p b = false →
      (l1 ++ b :: l2).takeWhile p = l1 := by
  intro l1
  induction l1 with
  | nil => intro b l2 _ hb; simp [List.takeWhile, hb]
  | cons c rest ih =>
    intro b l2 hall hb
    have hc : p c = true := hall c (by simp)
    simp [List.takeWhile, hc]
    exact ih b l2 (fun x hx => hall x (by simp [hx])) hb

/-- `dropWhile` drops a fully-satisfying prefix up to the first failing
element. -/
theorem dropWhile_all_append (p : Char → Bool) :
    ∀ (l1 : Str) (b : Char) (l2 : Str), (∀ c ∈ l1, p c = true) → p b = false →
      (l1 ++ b :: l2).dropWhile p = b :: l2 := by
  intro l1
  induction l1 with
  | nil => intro b l2 _ hb; simp [List.dropWhile, hb]
  | cons c rest ih =>
    intro b l2 hall hb
    have hc : p c = true := hall c (by simp)
    simp [List.dropWhile, hc]
    exact ih b l2 (fun x hx => hall x (by simp [hx])) hb

/-- With a writer label other than `"autoconf"`, no iteration of the
multisite key loop can raise: the only raising statement of `save_config`'s
loop body (the stale `global_value` dereference of source line 346) sits
inside an `elif method == "autoconf"` branch. -/
theorem processEntry_ne_error (config : Config) (method sname : Str)
    (hA : method ≠ str "autoconf") (st : MState) (e : Str × Str) :
    processEntry config method sname st e ≠ .error () := by
  intro hcontra
  simp only [processEntry] at hcontra
  repeat' split at hcontra
  all_goals first
    | exact Except.noConfusion hcontra
    | exact hA (by assumption)

/-- Success form of `processEntry_ne_error`. -/
theorem processEntry_isOk (config : Config) (method sname : Str)
    (hA : method ≠ str "autoconf") (st : MState) (e : Str × Str) :
    ∃ st1, processEntry config method sname st e = .ok st1 := by
  cases h : processEntry config method sname st e with
  | ok st1 => exact ⟨st1, rfl⟩
  | error u =>
    cases u
    exact absurd h (processEntry_ne_error config method sname hA st e)

/-- A fold of non-raising steps does not raise. -/
theorem foldE_ok {α : Type} (f : MState → α → Except Unit MState)
    (h : ∀ st a, ∃ st1, f st a = .ok st1) :
    ∀ (l : List α) (st : MState), ∃ st1, foldE f st l = .ok st1 := by
  intro l
  induction l with
  | nil => intro st; exact ⟨st, rfl⟩
  | cons a rest ih =>
    intro st
    obtain ⟨st1, h1⟩ := h st a
    obtain ⟨st2, h2⟩ := ih st1
    exact ⟨st2, by simp [foldE, h1, h2]⟩

/-- With a writer label other than `"autoconf"`, no iteration of the
multisite server loop can raise. -/
theorem processServer_isOk (config : Config) (method : Str)
    (hA : method ≠ str "autoconf") (st : MState) (sname : Str) :
    ∃ st1, processServer config method st sname = .ok st1 := by
  unfold processServer
  exact foldE_ok _ (processEntry_isOk config method sname hA) config _

/-! ## Shared concrete states -/

/-- The store right after schema creation: no services, no rows. -/
def dbEmpty : DB := ⟨[], [], [], [], [], [], [], [], [], false⟩

/-! ## Claim C1 -/

/-- The store for the C1 retry scenario: settings `G` (default `"dg"`) and
`S` (default `"ds"`), service `a`, a manual global value `(G, 0) = "v"` and a
manual service override `(a, S, 0) = "w"`. -/
def c1_db : DB := { dbEmpty with
  services := [str "a"]
  settings := [⟨str "G", [], [], [], str "dg", [], [], [], [], false⟩,
               ⟨str "S", [], [], [], str "ds", [], [], [], [], false⟩]
  global_values := [⟨str "G", 0, str "v", str "manual"⟩]
  services_settings := [⟨str "a", str "S", 0, str "w", str "manual"⟩] }

/-- The C1 configuration: multisite, one server, `G` reverted to its default
and a service override `a_S = "v"`. -/
def c1_cfg : Config :=
  [(str "MULTISITE", str "yes"), (str "SERVER_NAME", str "a"),
   (str "G", str "dg"), (str "a_S", str "v")]

/-- The store after the first (successful) C1 call: the autoconf submission
of the default value deleted the manual `(G, 0)` row; nothing else changed. -/
def c1_db1 : DB := { c1_db with
  global_values := []
  first_config_saved := true }

/-- C1: the claim that `save_config(config, method)` called twice with the
same arguments succeeds both times and is idempotent fails on the code: on
this store the first call succeeds, but the second identical call dereferences
the stale (`None`-bound) `global_value` variable at source line 346 while
handling the service override, so an exception escapes to the caller instead
of a second success. -/
theorem c1_save_config_retry_raises :
    save_config c1_db c1_cfg (str "autoconf") = .ok (c1_db1, []) ∧
    save_config c1_db1 c1_cfg (str "autoconf") = .error () :=
  ⟨rfl, rfl⟩

/-! ## Claim C2 -/

/-- A store holding one built-in (non-external) plugin `builtin1`. -/
def c2_db : DB := { dbEmpty with
  plugins := [⟨str "builtin1", 1, str "B", str "builtin plugin", str "1.0", false⟩] }

/-- An external manifest claiming the built-in plugin's id. -/
def c2_man : Manifest :=
  ⟨str "builtin1", 2, str "X", str "evil", str "2.0", [], [], []⟩

/-- C2: the claim that submitting a manifest whose id belongs to an existing
non-external plugin is skipped with a warning and the operation succeeds with
`""` fails on the code: the `db_ids` list guarding the skip branch is never
populated (source line 762), so the sync path instead tries to insert a
duplicate `Plugins` row, the commit fails, the transaction rolls back (the
built-in plugin itself is indeed unchanged) and a non-empty failure
description is returned. -/
theorem c2_update_external_plugins_builtin_fails :
    update_external_plugins c2_db [c2_man] = (c2_db, str "IntegrityError") ∧
    str "IntegrityError" ≠ ([] : Str) :=
  ⟨rfl, by decide⟩

/-! ## Claim C5 -/

/-- A fresh external-plugin manifest for the C5 double-run scenario. -/
def c5_man : Manifest :=
  ⟨str "p1", 1, str "P", str "plugin one", str "1.0", [], [], []⟩

/-- The store after the first (successful) reconciliation of `[c5_man]`. -/
def c5_db1 : DB := { dbEmpty with
  plugins := [⟨str "p1", 1, str "P", str "plugin one", str "1.0", true⟩] }

/-- C5: the claim that running `update_external_plugins(D)` twice in a row
succeeds both times with the second run a no-op fails on the code: because
the `db_ids` guard list is never populated (source line 762), the second run
re-inserts every desired plugin, hits a duplicate-id integrity error at
commit, rolls back (so the state happens to stay fixed) and returns a
non-empty failure description instead of succeeding. -/
theorem c5_update_external_plugins_second_run_fails :
    update_external_plugins dbEmpty [c5_man] = (c5_db1, []) ∧
    update_external_plugins c5_db1 [c5_man] = (c5_db1, str "IntegrityError") ∧
    str "IntegrityError" ≠ ([] : Str) :=
  ⟨rfl, rfl, by decide⟩

/-! ## Claim C7 -/

/-- C7 counterexample: a non-empty config lacking the `MULTISITE` key makes
`save_config` raise a `KeyError` (source line 279) that escapes to the
caller, contradicting the claim that no public operation ever lets an
exception propagate. -/
theorem c7_counterexample_missing_multisite_raises :
    save_config dbEmpty [(str "FOO", str "x")] (str "ui") = .error () :=
  rfl

/-- C7 (amended): `save_config` returns an explicit value — never an escaped
exception — for the empty config and for every non-empty config that
contains both `MULTISITE` and `SERVER_NAME`, provided the writer label is not
`"autoconf"` (the autoconf service-override path can still dereference the
stale `global_value` variable of source line 346); commit-time storage
failures are caught and returned as a failure string, not raised. -/
theorem c7_no_exception_amended (db : DB) (config : Config) (method mv sv : Str)
    (hM : cfgGet config (str "MULTISITE") = some mv)
    (hS : cfgGet config (str "SERVER_NAME") = some sv)
    (hA : method ≠ str "autoconf") :
    ∃ out : DB × Str, save_config db config method = .ok out := by
  by_cases hc : config = []
  · subst hc
    exact ⟨_, rfl⟩
  · simp only [save_config, hc, if_false, hM, hS]
    by_cases hy : mv = str "yes"
    · rw [if_pos hy]
      obtain ⟨st, hst⟩ :=
        foldE_ok _ (processServer_isOk config method hA) (splitOnChar ' ' sv) _
      rw [hst]
      exact ⟨_, rfl⟩
    · rw [if_neg hy]
      exact ⟨_, rfl⟩

/-- Concrete instantiation of `c7_no_exception_amended`. -/
theorem c7_no_exception_witness :
    cfgGet [(str "MULTISITE", str "yes"), (str "SERVER_NAME", str "app")]
        (str "MULTISITE") = some (str "yes") ∧
    cfgGet [(str "MULTISITE", str "yes"), (str "SERVER_NAME", str "app")]
        (str "SERVER_NAME") = some (str "app") ∧
    str "ui" ≠ str "autoconf" ∧
    ∃ out : DB × Str,
      save_config dbEmpty
        [(str "MULTISITE", str "yes"), (str "SERVER_NAME", str "app")]
        (str "ui") = .ok out :=
  ⟨rfl, rfl, by decide,
    c7_no_exception_amended dbEmpty _ (str "ui") (str "yes") (str "app")
      rfl rfl (by decide)⟩

/-! ## Claim C8 -/

/-- C8 counterexample: for the key `"X_007"` the code parses suffix `7` but
truncates only `len(str(7)) + 1 = 2` characters, leaving the setting key
`"X_0"` instead of the claimed "everything before that final underscore"
(`"X"`). -/
theorem c8_counterexample_leading_zeros :
    parseSuffixKey (str "X_007") = (str "X_0", 7) ∧ str "X_0" ≠ str "X" :=
  ⟨rfl, by decide⟩

/-- C8 (amended): a key with no trailing `_<digits>` suffix parses to suffix
0 with the key unchanged; a key `base_digits` parses to
`int(digits)` with setting key `base` exactly when the digit string has no
leading zeros (stated as: the decimal representation of the parsed integer
is as long as the digit string) — otherwise the remaining key keeps part of
the digit string. -/
theorem c8_suffix_parse_amended :
    (∀ key : Str, hasNumSuffix key = false → parseSuffixKey key = (key, 0)) ∧
    (∀ base digits : Str, digits ≠ [] → (∀ c ∈ digits, c.isDigit = true) →
      natReprLen (digitsToNat digits) = digits.length →
      parseSuffixKey (base ++ '_' :: digits) = (base, digitsToNat digits)) := by
  constructor
  · intro key h
    simp [parseSuffixKey, h]
  · intro base digits hne hdig hlen
    have hrev : (base ++ '_' :: digits).reverse = digits.reverse ++ '_' :: base.reverse := by
      simp
    have hall : ∀ c ∈ digits.reverse, c.isDigit = true := by
      intro c hc; exact hdig c (List.mem_reverse.mp hc)
    have hu : ('_').isDigit = false := by decide
    have htw : (base ++ '_' :: digits).reverse.takeWhile Char.isDigit = digits.reverse := by
      rw [hrev]; exact takeWhile_all_append _ _ _ _ hall hu
    have hdw : (base ++ '_' :: digits).reverse.dropWhile Char.isDigit = '_' :: base.reverse := by
      rw [hrev]; exact dropWhile_all_append _ _ _ _ hall hu
    have hns : hasNumSuffix (base ++ '_' :: digits) = true := by
      simp only [hasNumSuffix]
      rw [htw, hdw]
      simp [hne]
    have hallne : ∀ c ∈ digits.reverse, decide (c ≠ '_') = true := by
      intro c hc
      have hd := hall c hc
      have hcne : c ≠ '_' := by
        intro e; rw [e] at hd; exact absurd hd (by decide)
      simpa using hcne
    have hseg : lastUnderscoreSegment (base ++ '_' :: digits) = digits := by
      unfold lastUnderscoreSegment
      rw [hrev, takeWhile_all_append _ _ _ _ hallne (by decide)]
      simp
    unfold parseSuffixKey
    rw [hns]
    simp only [hseg, if_true]
    have hlen2 : (base ++ '_' :: digits).length = base.length + 1 + digits.length := by
      simp [List.length_append]; omega
    rw [hlen, hlen2]
    have harith : base.length + 1 + digits.length - (digits.length + 1) = base.length := by
      omega
    rw [harith]
    have htake : (base ++ '_' :: digits).take base.length = base := List.take_left base _
    rw [htake]

/-- Concrete instantiation of `c8_suffix_parse_amended`. -/
theorem c8_suffix_parse_witness :
    hasNumSuffix (str "FOO") = false ∧ parseSuffixKey (str "FOO") = (str "FOO", 0) ∧
    (str "12" ≠ [] ∧ natReprLen (digitsToNat (str "12")) = (str "12").length) ∧
    parseSuffixKey (str "X" ++ '_' :: str "12") = (str "X", digitsToNat (str "12")) :=
  ⟨rfl, c8_suffix_parse_amended.1 (str "FOO") rfl, ⟨by decide, rfl⟩,
    c8_suffix_parse_amended.2 (str "X") (str "12") (by decide) (by decide) rfl⟩

/-! ## Claim C4 -/

/-- The C4 store: one service, one `multiple`+`multisite` setting `X`, global
values at suffixes 1 and 2, no service overrides. -/
def c4_db : DB := { dbEmpty with
  services := [str "app"]
  settings := [⟨str "X", [], [], str "multisite", str "dx", [], [], [], [], true⟩]
  global_values := [⟨str "X", 1, str "g1", str "manual"⟩,
                    ⟨str "X", 2, str "g2", str "manual"⟩] }

/-- C4 counterexample: suffix 1 carries a `GlobalValue` but no service
override, yet the probe stops there — `X_1` is projected while `X_2` is not,
even though a `GlobalValue` row exists at suffix 2.  Under the claimed rule
("stop at the first suffix with no global value *and* no service override")
the probe would have continued past suffix 1 and projected `X_2`. -/
theorem c4_counterexample_probe_stops_at_global_only_suffix :
    (⟨str "X", 2, str "g2", str "manual"⟩ : Global_values) ∈ c4_db.global_values ∧
    findServiceRow c4_db.services_settings (str "app") (str "X") 1 = none ∧
    lookupK (get_config c4_db false) (str "X_1") = some (.bare (str "g1")) ∧
    lookupK (get_config c4_db false) (str "X_2") = none :=
  ⟨by decide, rfl, rfl, rfl⟩

/-- C4 (amended): the probe's continuation decision after the body for
`(service, setting, suffix)` depends only on the setting being
`multisite`-scoped and `multiple` and on the *service override*: it continues
exactly when the context is `"multisite"`, `multiple` is set, and either the
suffix is 0 or a `Services_settings` row exists at that suffix — the presence
of a `GlobalValue` row at a positive suffix does not keep the probe alive. -/
theorem c4_probe_continuation_amended (db : DB) (methods : Bool) (svc : Str)
    (st : Settings) (cfg : CfgMap) (sfx : Nat) :
    (probeStep db methods svc st cfg sfx).2 =
      (decide (st.context = str "multisite") && st.multiple &&
        (decide (sfx = 0) || (findServiceRow db.services_settings svc st.id sfx).isSome)) := by
  unfold probeStep
  by_cases hctx : st.context = str "multisite"
  · simp only [hctx, ne_eq, not_true_eq_false, if_false]
    cases hsr : findServiceRow db.services_settings svc st.id sfx with
    | some srow =>
      cases hm : st.multiple <;>
        cases hg : findGlobalRow db.global_values st.id sfx <;>
          simp [hsr, hm, hg]
    | none =>
      cases hm : st.multiple <;>
        cases hg : findGlobalRow db.global_values st.id sfx <;>
          rcases Nat.eq_zero_or_pos sfx with hs | hs <;>
            first
              | (simp [hsr, hm, hg, hs]; omega)
              | simp [hsr, hm, hg, hs]
  · simp [hctx]

/-! ## Claim C10 -/

/-- C10: with no `Services` rows, `get_config` returns the empty mapping —
no key appears, not even with its default value. -/
theorem c10_get_config_no_services (db : DB) (methods : Bool)
    (h : db.services = []) : get_config db methods = [] := by
  unfold get_config
  rw [h]
  rfl

/-- Concrete instantiation of `c10_get_config_no_services`: even with a
populated settings catalog and a stored global value, an empty `Services`
table projects to the empty mapping. -/
def c10_db : DB := { dbEmpty with
  settings := [⟨str "X", [], [], str "multisite", str "dx", [], [], [], [], false⟩]
  global_values := [⟨str "X", 0, str "v", str "manual"⟩] }

/-- Witness for `c10_get_config_no_services`. -/
theorem c10_get_config_no_services_witness :
    c10_db.services = [] ∧ get_config c10_db true = [] :=
  ⟨rfl, c10_get_config_no_services c10_db true rfl⟩

/-! ## Claim C3 -/

/-- The C3 multisite store: service `app`, a settings-catalog entry for `key`
with default `d`, and a manual global value `(key, 0) = w`. -/
def c3_dbM (key w d ctx : Str) (mult : Bool) : DB := { dbEmpty with
  services := [str "app"]
  settings := [⟨key, [], [], ctx, d, [], [], [], [], mult⟩]
  global_values := [⟨key, 0, w, str "manual"⟩] }

/-- The C3 multisite submission: `key = v` under multisite mode. -/
def c3_cfgM (key v : Str) : Config :=
  [(str "MULTISITE", str "yes"), (str "SERVER_NAME", str "app"), (key, v)]

/-- The store after the C3 multisite call: the manual row was overridden in
place to `(v, "autoconf")`. -/
def c3_dbM1 (key v d ctx : Str) (mult : Bool) : DB := { dbEmpty with
  services := [str "app"]
  settings := [⟨key, [], [], ctx, d, [], [], [], [], mult⟩]
  global_values := [⟨key, 0, v, str "autoconf"⟩]
  first_config_saved := true }

/-- The C3 single-site store: like `c3_dbM` but with no pre-existing
`Services` row (the single-site branch inserts its primary server
unconditionally, so a pre-existing row would abort the commit). -/
def c3_dbS (key w d ctx : Str) (mult : Bool) : DB := { dbEmpty with
  settings := [⟨key, [], [], ctx, d, [], [], [], [], mult⟩]
  global_values := [⟨key, 0, w, str "manual"⟩] }

/-- The C3 single-site submission: `key = v` with `MULTISITE != "yes"`. -/
def c3_cfgS (key v : Str) : Config :=
  [(str "MULTISITE", str "no"), (str "SERVER_NAME", str "app"), (key, v)]

/-- The store after the C3 single-site call: the manual `(key, 0)` row is
untouched; the unknown keys `MULTISITE` and `SERVER_NAME` were stored as new
global values owned by the caller (the single-site branch does not drop
unknown keys). -/
def c3_dbS1 (key w d ctx : Str) (mult : Bool) (method : Str) : DB := { dbEmpty with
  services := [str "app"]
  settings := [⟨key, [], [], ctx, d, [], [], [], [], mult⟩]
  global_values := [⟨key, 0, w, str "manual"⟩,
    ⟨str "MULTISITE", 0, str "no", method⟩,
    ⟨str "SERVER_NAME", 0, str "app", method⟩]
  first_config_saved := true }

/-- C3 counterexample: in single-site mode an `"autoconf"` submission of a
new value for a manual-owned global value leaves the row unchanged — the
claimed update to `(newValue, "autoconf")` does not happen, because the
single-site branch only updates rows whose stored method equals the caller's
method and grants `"autoconf"` no special authority. -/
theorem c3_counterexample_single_site_no_override :
    save_config (c3_dbS (str "KEY") (str "old") (str "def") (str "multisite") false)
        (c3_cfgS (str "KEY") (str "new")) (str "autoconf") =
      .ok (c3_dbS1 (str "KEY") (str "old") (str "def") (str "multisite") false
        (str "autoconf"), []) ∧
    findGlobalRow (c3_dbS1 (str "KEY") (str "old") (str "def") (str "multisite") false
        (str "autoconf")).global_values (str "KEY") 0 =
      some ⟨str "KEY", 0, str "old", str "manual"⟩ ∧
    (⟨str "KEY", 0, str "new", str "autoconf"⟩ : Global_values) ∉
      (c3_dbS1 (str "KEY") (str "old") (str "def") (str "multisite") false
        (str "autoconf")).global_values :=
  ⟨rfl, rfl, by decide⟩

/-- C3 (amended): given a `GlobalValue (key, 0)` owned by `"manual"` whose
value `w` differs from the submitted `v`, which also differs from the
default `d`, a `save_config` submission of `v` under `"autoconf"` updates the
row's value and method to `(v, "autoconf")` in multisite mode; in single-site
mode the same submission leaves the manual row completely unchanged (only the
owning method may update a row there). -/
theorem c3_autoconf_override_amended (key v w d ctx : Str) (mult : Bool)
    (h1 : key ≠ str "MULTISITE") (h2 : key ≠ str "SERVER_NAME")
    (h3 : hasNumSuffix key = false)
    (h4 : replaceAll (str "app_") [] key = key)
    (h5 : (str "app").isPrefixOf key = false)
    (h6 : v ≠ d) (h7 : v ≠ w) :
    (save_config (c3_dbM key w d ctx mult) (c3_cfgM key v) (str "autoconf") =
        .ok (c3_dbM1 key v d ctx mult, []) ∧
      findGlobalRow (c3_dbM1 key v d ctx mult).global_values key 0 =
        some ⟨key, 0, v, str "autoconf"⟩) ∧
    (save_config (c3_dbS key w d ctx mult) (c3_cfgS key v) (str "autoconf") =
        .ok (c3_dbS1 key w d ctx mult (str "autoconf"), []) ∧
      findGlobalRow (c3_dbS1 key w d ctx mult (str "autoconf")).global_values key 0 =
        some ⟨key, 0, w, str "manual"⟩) := by
  have h1' : (key = ['M','U','L','T','I','S','I','T','E']) = False := eq_false h1
  have h2' : (key = ['S','E','R','V','E','R','_','N','A','M','E']) = False := eq_false h2
  have h1r : ((['M','U','L','T','I','S','I','T','E'] : Str) = key) = False :=
    eq_false (fun e => h1 e.symm)
  have h2r : ((['S','E','R','V','E','R','_','N','A','M','E'] : Str) = key) = False :=
    eq_false (fun e => h2 e.symm)
  have h4' : replaceAllF ['a','p','p','_'] [] key.length key = key := by
    simpa +decide [replaceAll] using h4
  have h5' : List.isPrefixOf ['a','p','p'] key = false := h5
  refine ⟨⟨?_, ?_⟩, ⟨?_, ?_⟩⟩
  · simp +decide [save_config, commitSave, processServer, processEntry, foldE,
      findSetting, findGlobalRow, findServiceRow, parseSuffixKey,
      replaceAll, replaceAllF, deleteGlobalByMethod, deleteServiceByMethod,
      updateGlobalAt, cfgGet, distinctFrom, splitOnChar, c3_dbM, c3_cfgM, c3_dbM1,
      dbEmpty, str, h1', h2', h3, h4', h5', h6, Ne.symm h7]
  · simp [findGlobalRow, c3_dbM1, dbEmpty]
  · simp +decide [save_config, commitSave, singleSite, singleSiteEntry,
      findSetting, findGlobalRow, parseSuffixKey,
      deleteGlobalByMethod, deleteServiceByMethod, updateGlobalValueAt,
      cfgGet, distinctFrom, splitOnChar, c3_dbS, c3_cfgS, c3_dbS1, dbEmpty,
      str, h1', h2', h1r, h2r, h3, h6]
  · simp [findGlobalRow, c3_dbS1, dbEmpty]

/-- Concrete instantiation of `c3_autoconf_override_amended`. -/
theorem c3_autoconf_override_witness :
    (str "KEY" ≠ str "MULTISITE" ∧ str "KEY" ≠ str "SERVER_NAME" ∧
      hasNumSuffix (str "KEY") = false ∧
      replaceAll (str "app_") [] (str "KEY") = str "KEY" ∧
      (str "app").isPrefixOf (str "KEY") = false ∧
      str "new" ≠ str "def" ∧ str "new" ≠ str "old") ∧
    ((save_config (c3_dbM (str "KEY") (str "old") (str "def") (str "multisite") false)
        (c3_cfgM (str "KEY") (str "new")) (str "autoconf") =
        .ok (c3_dbM1 (str "KEY") (str "new") (str "def") (str "multisite") false, []) ∧
      findGlobalRow (c3_dbM1 (str "KEY") (str "new") (str "def") (str "multisite")
          false).global_values (str "KEY") 0 =
        some ⟨str "KEY", 0, str "new", str "autoconf"⟩) ∧
    (save_config (c3_dbS (str "KEY") (str "old") (str "def") (str "multisite") false)
        (c3_cfgS (str "KEY") (str "new")) (str "autoconf") =
        .ok (c3_dbS1 (str "KEY") (str "old") (str "def") (str "multisite") false
          (str "autoconf"), []) ∧
      findGlobalRow (c3_dbS1 (str "KEY") (str "old") (str "def") (str "multisite") false
          (str "autoconf")).global_values (str "KEY") 0 =
        some ⟨str "KEY", 0, str "old", str "manual"⟩)) :=
  ⟨⟨by decide, by decide, rfl, rfl, rfl, by decide, by decide⟩,
    c3_autoconf_override_amended (str "KEY") (str "new") (str "old") (str "def")
      (str "multisite") false (by decide) (by decide) rfl rfl rfl
      (by decide) (by decide)⟩

/-! ## Claim C6 -/

/-- The C6 multisite store: service `app`, a catalog entry for `key` with
default `d`, and no stored values at all. -/
def c6_dbM (key d ctx : Str) (mult : Bool) : DB := { dbEmpty with
  services := [str "app"]
  settings := [⟨key, [], [], ctx, d, [], [], [], [], mult⟩] }

/-- The C6 multisite submission: `key` equal to its default `d`. -/
def c6_cfgM (key d : Str) : Config :=
  [(str "MULTISITE", str "yes"), (str "SERVER_NAME", str "app"), (key, d)]

/-- The C6 single-site store: like `c6_dbM` but without the `Services` row. -/
def c6_dbS (key d ctx : Str) (mult : Bool) : DB := { dbEmpty with
  settings := [⟨key, [], [], ctx, d, [], [], [], [], mult⟩] }

/-- The C6 single-site submission. -/
def c6_cfgS (key d : Str) : Config :=
  [(str "MULTISITE", str "no"), (str "SERVER_NAME", str "app"), (key, d)]

/-- The store after the C6 single-site call: no row for `key` (the default
was elided), but the unknown keys `MULTISITE` and `SERVER_NAME` were stored. -/
def c6_dbS1 (key d ctx : Str) (mult : Bool) (method : Str) : DB := { dbEmpty with
  services := [str "app"]
  settings := [⟨key, [], [], ctx, d, [], [], [], [], mult⟩]
  global_values := [⟨str "MULTISITE", 0, str "no", method⟩,
    ⟨str "SERVER_NAME", 0, str "app", method⟩]
  first_config_saved := true }

/-- The C6 counterexample store: service `app` and the real `SERVER_NAME`
catalog entry (multisite context, default `""`). -/
def c6x_db : DB := { dbEmpty with
  services := [str "app"]
  settings := [⟨str "SERVER_NAME", [], [], str "multisite", [], [], [], [], [], false⟩] }

/-- The C6 counterexample submission: the service-prefixed key
`app_SERVER_NAME` with a value equal to the setting's default `""`. -/
def c6x_cfg : Config :=
  [(str "MULTISITE", str "yes"), (str "SERVER_NAME", str "app"),
   (str "app_SERVER_NAME", [])]

/-- The store after the C6 counterexample call: a `Services_settings` row for
`(app, SERVER_NAME, 0)` was stored even though the submitted value equals the
default (and a global `SERVER_NAME` row was stored for the top-level key). -/
def c6x_db1 : DB := { c6x_db with
  global_values := [⟨str "SERVER_NAME", 0, str "app", str "ui"⟩]
  services_settings := [⟨str "app", str "SERVER_NAME", 0, [], str "ui"⟩]
  first_config_saved := true }

/-- C6 counterexample: the submitted key `app_SERVER_NAME` carries a value
equal to its setting's default, yet `save_config` stores a
`Services_settings` row for it — the `key != "SERVER_NAME"` guard of the
default-elision test exempts service-scoped `SERVER_NAME` keys, refuting the
claim that a value equal to the default is never stored. -/
theorem c6_counterexample_server_name_default_stored :
    cfgGet c6x_cfg (str "app_SERVER_NAME") = some [] ∧
    (findSetting c6x_db.settings (str "SERVER_NAME")).map Settings.default = some [] ∧
    save_config c6x_db c6x_cfg (str "ui") = .ok (c6x_db1, []) ∧
    (⟨str "app", str "SERVER_NAME", 0, [], str "ui"⟩ : Services_settings) ∈
      c6x_db1.services_settings :=
  ⟨rfl, rfl, rfl, by decide⟩

/-- C6 (amended): for a submitted key whose setting id is not `SERVER_NAME`,
a value equal to the setting's default is never stored — in multisite mode no
`GlobalValue` or `Services_settings` row at all is created for it, in
single-site mode no row for that setting id is created — and a subsequent
`get_config(methods=true)` reports the default value with method
`"default"`.  (A service-prefixed `SERVER_NAME` key is the exception, see the
counterexample.) -/
theorem c6_default_elision_amended (key d ctx method : Str) (mult : Bool)
    (h1 : key ≠ str "MULTISITE") (h2 : key ≠ str "SERVER_NAME")
    (h3 : hasNumSuffix key = false)
    (h4 : replaceAll (str "app_") [] key = key)
    (h5 : (str "app").isPrefixOf key = false) :
    (save_config (c6_dbM key d ctx mult) (c6_cfgM key d) method =
        .ok ({ c6_dbM key d ctx mult with first_config_saved := true }, []) ∧
      ({ c6_dbM key d ctx mult with first_config_saved := true }).global_values = [] ∧
      ({ c6_dbM key d ctx mult with first_config_saved := true }).services_settings = [] ∧
      lookupK (get_config { c6_dbM key d ctx mult with first_config_saved := true } true)
          key = some (.pair d (str "default"))) ∧
    (save_config (c6_dbS key d ctx mult) (c6_cfgS key d) method =
        .ok (c6_dbS1 key d ctx mult method, []) ∧
      (∀ r ∈ (c6_dbS1 key d ctx mult method).global_values, r.setting_id ≠ key) ∧
      (c6_dbS1 key d ctx mult method).services_settings = [] ∧
      lookupK (get_config (c6_dbS1 key d ctx mult method) true) key =
        some (.pair d (str "default"))) := by
  have h1' : (key = ['M','U','L','T','I','S','I','T','E']) = False := eq_false h1
  have h2' : (key = ['S','E','R','V','E','R','_','N','A','M','E']) = False := eq_false h2
  have h1r : ((['M','U','L','T','I','S','I','T','E'] : Str) = key) = False :=
    eq_false (fun e => h1 e.symm)
  have h2r : ((['S','E','R','V','E','R','_','N','A','M','E'] : Str) = key) = False :=
    eq_false (fun e => h2 e.symm)
  have h4' : replaceAllF ['a','p','p','_'] [] key.length key = key := by
    simpa +decide [replaceAll] using h4
  have h5' : List.isPrefixOf ['a','p','p'] key = false := h5
  have fA : (key = 'a' :: 'p' :: 'p' :: '_' :: key) = False := by
    refine eq_false ?_
    intro h
    have hl := congrArg List.length h
    simp at hl
    omega
  have fB : (key = key ++ '_' :: natStr 1) = False := by
    refine eq_false ?_
    intro h
    have hl := congrArg List.length h
    simp [List.length_append] at hl
  have fC : (('a' :: 'p' :: 'p' :: '_' :: key : Str) = key ++ '_' :: natStr 1) = False := by
    refine eq_false ?_
    intro h
    have hl := congrArg List.length h
    have hn : natStr 1 = ['1'] := rfl
    rw [hn] at hl
    simp [List.length_append] at hl
    omega
  refine ⟨⟨?_, ?_, ?_, ?_⟩, ⟨?_, ?_, ?_, ?_⟩⟩
  · simp +decide [save_config, commitSave, processServer, processEntry, foldE,
      findSetting, findGlobalRow, findServiceRow, parseSuffixKey,
      replaceAll, replaceAllF, deleteGlobalByMethod, deleteServiceByMethod,
      cfgGet, distinctFrom, splitOnChar, c6_dbM, c6_cfgM, dbEmpty, str,
      h1', h2', h3, h4', h5']
  · rfl
  · rfl
  · by_cases hctx : ctx = (['m','u','l','t','i','s','i','t','e'] : Str) <;> cases mult <;>
      simp +decide [get_config, fuelOf, maxSuffixG, maxSuffixS, probe, probeStep,
        suffKey, findGlobalRow, findServiceRow, setK, lookupK, mkVal, EVal.valueOf,
        c6_dbM, dbEmpty, str, hctx, fA, fB, fC]
  · simp +decide [save_config, commitSave, singleSite, singleSiteEntry,
      findSetting, findGlobalRow, parseSuffixKey,
      deleteGlobalByMethod, deleteServiceByMethod,
      cfgGet, distinctFrom, splitOnChar, c6_dbS, c6_cfgS, c6_dbS1, dbEmpty, str,
      h1', h2', h1r, h2r, h3]
  · intro r hr
    simp [c6_dbS1, dbEmpty] at hr
    rcases hr with h | h <;> subst h
    · exact fun e => h1 e.symm
    · exact fun e => h2 e.symm
  · rfl
  · by_cases hctx : ctx = (['m','u','l','t','i','s','i','t','e'] : Str) <;> cases mult <;>
      simp +decide [get_config, fuelOf, maxSuffixG, maxSuffixS, probe, probeStep,
        suffKey, findGlobalRow, findServiceRow, setK, lookupK, mkVal, EVal.valueOf,
        c6_dbS1, dbEmpty, str, hctx, fA, fB, fC, h1r, h2r]

/-- Concrete instantiation of `c6_default_elision_amended`. -/
theorem c6_default_elision_witness :
    (str "KEY" ≠ str "MULTISITE" ∧ str "KEY" ≠ str "SERVER_NAME" ∧
      hasNumSuffix (str "KEY") = false ∧
      replaceAll (str "app_") [] (str "KEY") = str "KEY" ∧
      (str "app").isPrefixOf (str "KEY") = false) ∧
    (save_config (c6_dbM (str "KEY") (str "def") (str "multisite") false)
        (c6_cfgM (str "KEY") (str "def")) (str "ui") =
      .ok ({ c6_dbM (str "KEY") (str "def") (str "multisite") false with
              first_config_saved := true }, []) ∧
      lookupK (get_config { c6_dbM (str "KEY") (str "def") (str "multisite") false with
          first_config_saved := true } true) (str "KEY") =
        some (.pair (str "def") (str "default"))) :=
  ⟨⟨by decide, by decide, rfl, rfl, rfl⟩,
    ((c6_default_elision_amended (str "KEY") (str "def") (str "multisite") (str "ui")
        false (by decide) (by decide) rfl rfl rfl).1).1,
    ((((c6_default_elision_amended (str "KEY") (str "def") (str "multisite") (str "ui")
        false (by decide) (by decide) rfl rfl rfl).1).2).2).2⟩

/-! ## Claim C9 -/

/-- The C9 store: one service and one stored custom config at
`(svc, normType ty, nm)` with content `d0` (checksum derived from content)
owned by `m0`. -/
def c9_db (svc ty nm d0 m0 : Str) : DB := { dbEmpty with
  services := [svc]
  custom_configs := [⟨some svc, normType ty, nm, d0, sha256hex d0, m0⟩] }

/-- The C9 submitted entry targeting the stored row's key. -/
def c9_entry (svc ty nm rawV : Str) : CustomEntry := ⟨rawV, some svc, ty, nm⟩

/-- C9: with a row already stored at `(svc, type, name)`, `save_custom_configs`
leaves the store holding exactly one row at that key, whose content and
checksum are the new ones exactly when the new checksum differs from the
stored one AND the caller's method is the stored owner or `"autoconf"` (the
updated row's method becomes the caller's); in every other case the stored
row's content, checksum and method are unchanged.  The call reports no
warnings. -/
theorem c9_custom_config_update_rule (svc ty nm d0 rawV m0 method : Str)
    (hsvc : svc ≠ []) :
    save_custom_configs (c9_db svc ty nm d0 m0) [c9_entry svc ty nm rawV] method =
      ({ c9_db svc ty nm d0 m0 with custom_configs :=
          [if sha256hex (replaceAll ['\\', '\n'] ['\n'] rawV) ≠ sha256hex d0 ∧
              (method = m0 ∨ method = str "autoconf")
            then ⟨some svc, normType ty, nm, replaceAll ['\\', '\n'] ['\n'] rawV,
                  sha256hex (replaceAll ['\\', '\n'] ['\n'] rawV), method⟩
            else ⟨some svc, normType ty, nm, d0, sha256hex d0, m0⟩] }, []) := by
  by_cases hm : m0 = method
  · subst hm
    by_cases hck : replaceAll ['\\', '\n'] ['\n'] rawV = d0
    · simp [save_custom_configs, customStep, deleteCustomByMethod, findCustomRow,
        addWarning, distinctFrom, updateCustomAt, CustomEntry.serviceId, sha256hex,
        c9_db, c9_entry, dbEmpty, hsvc, hck]
    · simp [save_custom_configs, customStep, deleteCustomByMethod, findCustomRow,
        addWarning, distinctFrom, updateCustomAt, CustomEntry.serviceId, sha256hex,
        c9_db, c9_entry, dbEmpty, hsvc, hck]
  · by_cases hck : replaceAll ['\\', '\n'] ['\n'] rawV = d0
    · simp [save_custom_configs, customStep, deleteCustomByMethod, findCustomRow,
        addWarning, distinctFrom, updateCustomAt, CustomEntry.serviceId, sha256hex,
        c9_db, c9_entry, dbEmpty, hsvc, hck, hm, Ne.symm hm]
    · by_cases hau : method = str "autoconf"
      · have hm2 : (m0 = str "autoconf") = False :=
          eq_false (fun e => hm (e.trans hau.symm))
        simp [save_custom_configs, customStep, deleteCustomByMethod, findCustomRow,
          addWarning, distinctFrom, updateCustomAt, CustomEntry.serviceId, sha256hex,
          c9_db, c9_entry, dbEmpty, hsvc, hck, hm, Ne.symm hm, hau, hm2]
      · simp [save_custom_configs, customStep, deleteCustomByMethod, findCustomRow,
          addWarning, distinctFrom, updateCustomAt, CustomEntry.serviceId, sha256hex,
          c9_db, c9_entry, dbEmpty, hsvc, hck, hm, Ne.symm hm, hau]

/-- Concrete instantiation of `c9_custom_config_update_rule` (a foreign
writer with unchanged checksum: the stored row is untouched). -/
theorem c9_custom_config_update_rule_witness :
    str "app" ≠ ([] : Str) ∧
    save_custom_configs (c9_db (str "app") (str "http") (str "n1") (str "old")
        (str "manual")) [c9_entry (str "app") (str "http") (str "n1") (str "new")]
        (str "ui") =
      ({ c9_db (str "app") (str "http") (str "n1") (str "old") (str "manual") with
          custom_configs :=
            [if sha256hex (replaceAll ['\\', '\n'] ['\n'] (str "new")) ≠
                sha256hex (str "old") ∧
                (str "ui" = str "manual" ∨ str "ui" = str "autoconf")
              then ⟨some (str "app"), normType (str "http"), str "n1",
                    replaceAll ['\\', '\n'] ['\n'] (str "new"),
                    sha256hex (replaceAll ['\\', '\n'] ['\n'] (str "new")), str "ui"⟩
              else ⟨some (str "app"), normType (str "http"), str "n1", str "old",
                    sha256hex (str "old"), str "manual"⟩] }, []) :=
  ⟨by decide,
    c9_custom_config_update_rule (str "app") (str "http") (str "n1") (str "old")
      (str "new") (str "manual") (str "ui") (by decide)⟩

end Bw
